import Mathlib

/-
  Verification development for the OpenSCAD C bridge
  (src/src/io/export_cbridge.cc): the render orchestration and
  mesh-extraction pipeline.

  Shallow embedding notes:
  * Float/double arithmetic of the source is idealized as real arithmetic.
  * The flat `normals` accumulator array of the source is modelled as a
    function from flat positions (vertex index * 3 + component) to reals;
    the source only ever reads and writes it through such flat positions.
  * PolySet (an external collaborator of this file) is modelled by `Mesh`:
    a vertex list plus `indices`, the list of faces, each face a list of
    already-cast uint32 vertex indices (the source casts the C++ ints of
    an IndexedFace to uint32_t); its `isTriangular` and `isEmpty` queries
    are modelled from the collaborator contract.
  * External collaborator calls (parse, instantiate, evaluateGeometry,
    getGeometryAsPolySet, tessellate_faces) and the asynchronous
    cancellation requests are supplied by a `RenderEnv`; each call can
    succeed, fail, or throw, and writes some console text.
-/

noncomputable section

namespace OpenSCADKit

/-- Three real components, standing for the double/float 3-vectors of the
source (Eigen Vector3d and the float triples pushed into the arrays). -/
abbrev Vec3 : Type := ℝ × ℝ × ℝ

/-- Zero vector. -/
def vzero : Vec3 := (0, 0, 0)

/-- Componentwise sum. -/
def vadd (a b : Vec3) : Vec3 := (a.1 + b.1, a.2.1 + b.2.1, a.2.2 + b.2.2)

/-- Componentwise difference, as in `v1 - v0` of the source. -/
def vsub (a b : Vec3) : Vec3 := (a.1 - b.1, a.2.1 - b.2.1, a.2.2 - b.2.2)

/-- Cross product, as in `edge1.cross(edge2)` of the source. -/
def cross (a b : Vec3) : Vec3 :=
  (a.2.1 * b.2.2 - a.2.2 * b.2.1,
   a.2.2 * b.1 - a.1 * b.2.2,
   a.1 * b.2.1 - a.2.1 * b.1)

/-- Sum of squared components. -/
def normSq (a : Vec3) : ℝ := a.1 * a.1 + a.2.1 * a.2.1 + a.2.2 * a.2.2

/-- Euclidean norm, as in `normal.norm()` of the source. -/
def vnorm (a : Vec3) : ℝ := Real.sqrt (normSq a)

/-- Componentwise division by a scalar, as in `normal /= len`. -/
def vdiv (a : Vec3) (c : ℝ) : Vec3 := (a.1 / c, a.2.1 / c, a.2.2 / c)

/-- Component selector: 0, 1, 2 pick x, y, z. -/
def vcomp (c : ℕ) (a : Vec3) : ℝ :=
  if c = 0 then a.1 else if c = 1 then a.2.1 else a.2.2

/-- The three components as a list, in x, y, z order (the order the source
pushes them into its flat arrays). -/
def vecToList (v : Vec3) : List ℝ := [v.1, v.2.1, v.2.2]

/-- Modelled collaborator data: a PolySet, i.e. vertices plus the faces
list that the source calls `indices` (each face a list of vertex
indices). -/
structure Mesh where
  vertices : List Vec3
  indices : List (List ℕ)

/-- Modelled from the collaborator contract: `PolySet::isTriangular`,
true when every face has exactly three vertices. -/
def Mesh.isTriangular (m : Mesh) : Bool :=
  m.indices.all fun f => f.length == 3

/-- Modelled from the collaborator contract: `PolySet::isEmpty`, true when
the mesh holds no data. -/
def Mesh.isEmpty (m : Mesh) : Bool :=
  m.vertices.isEmpty && m.indices.isEmpty

/-- The render result record of the source (`OpenSCADRenderResult`). -/
structure RenderResult where
  success : Bool
  error_message : String
  console_output : String
  positions : List ℝ
  normals : List ℝ
  indices : List ℕ
  vertex_count : ℕ
  triangle_count : ℕ

/-- The freshly allocated result at the top of `openscad_render`:
`success = false`, zero counts, empty strings and arrays. -/
def emptyRenderResult : RenderResult :=
  { success := false
  , error_message := ""
  , console_output := ""
  , positions := []
  , normals := []
  , indices := []
  , vertex_count := 0
  , triangle_count := 0 }

/-- State threaded through the face loop of `extractMeshData`: the indices
pushed so far and the flat normal accumulator array (position
`idx * 3 + component`). -/
structure ExtractAcc where
  indices : List ℕ
  acc : ℕ → ℝ

/-- One `+=` into the flat accumulator at one flat position. -/
def bump (f : ℕ → ℝ) (i : ℕ) (x : ℝ) : ℕ → ℝ :=
  fun j => if j = i then f j + x else f j

/-- The three `+=` writes the source performs for one vertex index `idx` of
a face: components x, y, z at flat positions `idx*3+0,1,2`. -/
def addNormal (f : ℕ → ℝ) (idx : ℕ) (nrm : Vec3) : ℕ → ℝ :=
  bump (bump (bump f (idx * 3 + 0) nrm.1) (idx * 3 + 1) nrm.2.1) (idx * 3 + 2) nrm.2.2

/-- One iteration of the face loop of `extractMeshData` (source lines
116-149): faces with fewer than 3 vertices are skipped; otherwise the first
three indices are pushed unconditionally; the normal accumulation runs only
under the bounds check `i0 < vertexCount && i1 < vertexCount &&
i2 < vertexCount` and only when the cross product has positive length. -/
def faceStep (verts : List Vec3) (s : ExtractAcc) (face : List ℕ) : ExtractAcc :=
  if face.length < 3 then s
  else
    let i0 := face.getD 0 0
    let i1 := face.getD 1 0
    let i2 := face.getD 2 0
    let s1 : ExtractAcc := { s with indices := s.indices ++ [i0, i1, i2] }
    if i0 < verts.length ∧ i1 < verts.length ∧ i2 < verts.length then
      let v0 := verts.getD i0 vzero
      let v1 := verts.getD i1 vzero
      let v2 := verts.getD i2 vzero
      let nrm := cross (vsub v1 v0) (vsub v2 v0)
      let len := vnorm nrm
      if 0 < len then
        let u := vdiv nrm len
        { s1 with acc := addNormal (addNormal (addNormal s1.acc i0 u) i1 u) i2 u }
      else s1
    else s1

/-- The whole face loop, starting from no indices and the all-zero
accumulator the vertex loop of the source initializes. -/
def extractCore (verts : List Vec3) (faces : List (List ℕ)) : ExtractAcc :=
  List.foldl (faceStep verts) ⟨[], fun _ => 0⟩ faces

/-- One iteration of the final normalization loop of the source (lines
152-167): divide by the accumulated length if positive, else the default
normal (0,0,1). -/
def finalizeVertex (acc : ℕ → ℝ) (i : ℕ) : List ℝ :=
  let nx := acc (i * 3 + 0)
  let ny := acc (i * 3 + 1)
  let nz := acc (i * 3 + 2)
  let len := Real.sqrt (nx * nx + ny * ny + nz * nz)
  if 0 < len then [nx / len, ny / len, nz / len] else [0, 0, 1]

/-- The mesh actually extracted (source lines 86-98): the original when it
is already triangular, otherwise the tessellation result when the external
`tessellate_faces` produced one, otherwise the original as fallback. -/
def effMesh (tess : Option Mesh) (polyset : Mesh) : Mesh :=
  if polyset.isTriangular then polyset else tess.getD polyset

/-- Embedding of `extractMeshData` (source lines 85-171). `tess` is the
outcome of the external `tessellate_faces` call. The source appends into
the arrays of the freshly allocated result it is handed (they are empty at
its only call site), so the mesh fields are produced outright here while
the success, error and console fields of `result` are kept. -/
def extractMeshData (tess : Option Mesh) (polyset : Mesh) (result : RenderResult) :
    RenderResult :=
  let ps := effMesh tess polyset
  let vertexCount := ps.vertices.length
  let core := extractCore ps.vertices ps.indices
  { result with
    positions := ps.vertices.flatMap vecToList
  , normals := (List.range vertexCount).flatMap (finalizeVertex core.acc)
  , indices := core.indices
  , vertex_count := vertexCount
  , triangle_count := core.indices.length / 3 }

/-- The two process-wide atomic flags of the source: `g_initialized` and
`g_cancelled`. -/
structure GlobalState where
  initialized : Bool
  cancelled : Bool

/-- Outcome of one external collaborator call: success with a value, an
explicit failure (false return or null pointer), or a thrown fault carrying
an optional descriptive message (`some m` stands for a `std::exception`
whose `what()` gives `m`, `none` for any other thrown object). Each
outcome also carries the console text the call wrote before returning or
throwing. -/
inductive StageRes (α : Type) where
  | ok (val : α) (out : String)
  | fail (out : String)
  | exn (msg : Option String) (out : String)

/-- Environment of one render call: the outcomes of the external
collaborator calls and the asynchronous cancellation requests. `cancel1`,
`cancel2`, `cancel3` say whether a request arrives between the flag reset
and the first checkpoint, between the first and the second checkpoint, and
between the second and the third checkpoint; `cancel4` says whether one
arrives after the third checkpoint but before extraction begins. The flag
value seen at a checkpoint is the disjunction of the requests that arrived
up to it. -/
structure RenderEnv where
  initFails : Bool
  parse : StageRes Unit
  inst : StageRes Unit
  geom : StageRes Unit
  convert : StageRes Mesh
  tess : Option Mesh
  cancel1 : Bool
  cancel2 : Bool
  cancel3 : Bool
  cancel4 : Bool

/-- Embedding of `openscad_init` (source lines 178-194): the atomic
test-and-set on `g_initialized`; an already-initialized process returns 0
without any setup; a throwing setup resets the flag and returns -1. -/
def openscad_init (g : GlobalState) (initFails : Bool) : GlobalState × Int :=
  if g.initialized then (g, 0)
  else if initFails then ({ g with initialized := false }, -1)
  else ({ g with initialized := true }, 0)

/-- Embedding of `openscad_cancel` (source lines 383-385). -/
def openscad_cancel (g : GlobalState) : GlobalState :=
  { g with cancelled := true }

/-- The error message the catch-all handlers of the source produce. -/
def exnMessage (msg : Option String) : String :=
  match msg with
  | some m => "Exception: " ++ m
  | none => "Unknown exception during render"

/-- A cancellation result: error message "Render cancelled" plus the
console text captured so far (source lines 236-244 and the two later
copies). -/
def cancelResult (r : RenderResult) (cap : String) : RenderResult :=
  { r with error_message := "Render cancelled", console_output := cap }

/-- Body of `openscad_render` after the initialization guard (source lines
215-339): capture console output, parse, then the three cancellation
checkpoints interleaved with instantiation, geometry evaluation and
conversion to a polygon mesh, then mesh extraction; explicit failures and
caught faults each produce a failed result carrying the console text
captured so far. The returned global state records that the cancellation
flag ends up set exactly when some request arrived after the reset. -/
def renderAfterInit (g : GlobalState) (env : RenderEnv) (r0 : RenderResult) :
    GlobalState × RenderResult :=
  let gEnd : GlobalState :=
    { g with cancelled := env.cancel1 || env.cancel2 || env.cancel3 || env.cancel4 }
  match env.parse with
  | .fail pout =>
      (gEnd, { r0 with error_message := "Failed to parse OpenSCAD source"
                     , console_output := pout })
  | .exn msg pout =>
      (gEnd, { r0 with error_message := exnMessage msg, console_output := pout })
  | .ok _ pout =>
    if env.cancel1 then (gEnd, cancelResult r0 pout)
    else
      match env.inst with
      | .fail iout =>
          (gEnd, { r0 with error_message := "Failed to instantiate module"
                         , console_output := pout ++ iout })
      | .exn msg iout =>
          (gEnd, { r0 with error_message := exnMessage msg
                         , console_output := pout ++ iout })
      | .ok _ iout =>
        if env.cancel1 || env.cancel2 then (gEnd, cancelResult r0 (pout ++ iout))
        else
          match env.geom with
          | .fail gout =>
              (gEnd, { r0 with error_message := "Failed to evaluate geometry"
                             , console_output := pout ++ iout ++ gout })
          | .exn msg gout =>
              (gEnd, { r0 with error_message := exnMessage msg
                             , console_output := pout ++ iout ++ gout })
          | .ok _ gout =>
            if env.cancel1 || env.cancel2 || env.cancel3 then
              (gEnd, cancelResult r0 (pout ++ iout ++ gout))
            else
              match env.convert with
              | .fail cout =>
                  (gEnd, { r0 with error_message := "Geometry produced no mesh data"
                                 , console_output := pout ++ iout ++ gout ++ cout })
              | .exn msg cout =>
                  (gEnd, { r0 with error_message := exnMessage msg
                                 , console_output := pout ++ iout ++ gout ++ cout })
              | .ok ps cout =>
                if ps.isEmpty then
                  (gEnd, { r0 with error_message := "Geometry produced no mesh data"
                                 , console_output := pout ++ iout ++ gout ++ cout })
                else
                  let r := extractMeshData env.tess ps r0
                  (gEnd, { r with success := true
                                , console_output := pout ++ iout ++ gout ++ cout })

/-- Embedding of `openscad_render` (source lines 196-340): ignore
`fonts_path`, allocate a fresh result, reset the cancellation flag, run
the one-time initialization if needed (its failure is the only failure
before console capture begins), then the pipeline body. `scad_source` is
consumed only by the external parser, whose outcome `env` supplies. -/
def openscad_render (g : GlobalState) (env : RenderEnv) (scad_source : String)
    (fonts_path : Option String) : GlobalState × RenderResult :=
  let _ := scad_source
  let _ := fonts_path
  let r0 := emptyRenderResult
  let g0 : GlobalState := { g with cancelled := false }
  if g0.initialized then renderAfterInit g0 env r0
  else
    let gi := openscad_init g0 env.initFails
    if gi.2 = 0 then renderAfterInit gi.1 env r0
    else (gi.1, { r0 with error_message := "Failed to initialize OpenSCAD engine" })

/-- A one-vertex mesh whose single triangular face references the
out-of-range vertex indices 1 and 2. -/
def meshOutOfRange : Mesh :=
  { vertices := [((0 : ℝ), (0 : ℝ), (0 : ℝ))], indices := [[0, 1, 2]] }

/-- A single valid triangle in the xy-plane. -/
def meshTriangle : Mesh :=
  { vertices := [((0 : ℝ), (0 : ℝ), (0 : ℝ)), ((1 : ℝ), (0 : ℝ), (0 : ℝ)),
                 ((0 : ℝ), (1 : ℝ), (0 : ℝ))]
  , indices := [[0, 1, 2]] }

/-- An environment in which every collaborator call succeeds and no
cancellation request arrives. -/
def envAllOk : RenderEnv :=
  { initFails := false
  , parse := .ok () "p"
  , inst := .ok () "i"
  , geom := .ok () "g"
  , convert := .ok meshOutOfRange "c"
  , tess := none
  , cancel1 := false
  , cancel2 := false
  , cancel3 := false
  , cancel4 := false }

/-- Declarative contribution of one face to the normal accumulator of
vertex `j`, written from the specified algorithm: the normalized cross
product of the edge vectors, added once for each of the face's first three
vertex indices that equals `j`; zero for short faces, out-of-range faces
and degenerate (zero-length cross product) faces. -/
def faceContribution (verts : List Vec3) (face : List ℕ) (j : ℕ) : Vec3 :=
  if face.length < 3 then vzero
  else
    let i0 := face.getD 0 0
    let i1 := face.getD 1 0
    let i2 := face.getD 2 0
    if i0 < verts.length ∧ i1 < verts.length ∧ i2 < verts.length then
      let v0 := verts.getD i0 vzero
      let v1 := verts.getD i1 vzero
      let v2 := verts.getD i2 vzero
      let nrm := cross (vsub v1 v0) (vsub v2 v0)
      let len := vnorm nrm
      if 0 < len then
        let u := vdiv nrm len
        vadd (vadd (if j = i0 then u else vzero) (if j = i1 then u else vzero))
          (if j = i2 then u else vzero)
      else vzero
    else vzero

/-- The triangle a face emits: nothing for short faces, else its first
three vertex indices in order. -/
def firstThree (face : List ℕ) : List ℕ :=
  if face.length < 3 then [] else [face.getD 0 0, face.getD 1 0, face.getD 2 0]

theorem vcomp_vzero (c : ℕ) : vcomp c vzero = 0 := by
  unfold vcomp vzero
  split_ifs <;> rfl

theorem vcomp_vadd (c : ℕ) (a b : Vec3) : vcomp c (vadd a b) = vcomp c a + vcomp c b := by
  unfold vcomp vadd
  split_ifs <;> rfl

theorem bump_apply (f : ℕ → ℝ) (i : ℕ) (x : ℝ) (p : ℕ) :
    bump f i x p = if p = i then f p + x else f p := rfl

theorem addNormal_apply (f : ℕ → ℝ) (idx : ℕ) (nrm : Vec3) (j c : ℕ) (hc : c < 3) :
    addNormal f idx nrm (j * 3 + c)
      = f (j * 3 + c) + (if j = idx then vcomp c nrm else 0) := by
  unfold addNormal
  rw [bump_apply, bump_apply, bump_apply]
  by_cases hj : j = idx
  · subst hj
    interval_cases c
    · rw [if_neg (by omega), if_neg (by omega), if_pos (by omega), if_pos rfl]
      rfl
    · rw [if_neg (by omega), if_pos (by omega), if_neg (by omega), if_pos rfl]
      rfl
    · rw [if_pos (by omega), if_neg (by omega), if_neg (by omega), if_pos rfl]
      rfl
  · rw [if_neg (by omega), if_neg (by omega), if_neg (by omega), if_neg hj]
    ring

theorem addNormal3_apply (f : ℕ → ℝ) (i0 i1 i2 : ℕ) (u : Vec3) (j c : ℕ) (hc : c < 3) :
    addNormal (addNormal (addNormal f i0 u) i1 u) i2 u (j * 3 + c)
      = f (j * 3 + c)
        + vcomp c (vadd (vadd (if j = i0 then u else vzero) (if j = i1 then u else vzero))
            (if j = i2 then u else vzero)) := by
  have hite : ∀ (P : Prop) (_ : Decidable P) (u : Vec3),
      vcomp c (if P then u else vzero) = if P then vcomp c u else 0 := by
    intro P hP u
    split_ifs <;> simp [vcomp_vzero]
  rw [addNormal_apply _ _ _ _ _ hc, addNormal_apply _ _ _ _ _ hc,
    addNormal_apply _ _ _ _ _ hc, vcomp_vadd, vcomp_vadd, hite, hite, hite]
  ring

theorem faceStep_acc_apply (verts : List Vec3) (s : ExtractAcc) (face : List ℕ)
    (j c : ℕ) (hc : c < 3) :
    (faceStep verts s face).acc (j * 3 + c)
      = s.acc (j * 3 + c) + vcomp c (faceContribution verts face j) := by
  unfold faceStep faceContribution
  dsimp only
  by_cases h1 : face.length < 3
  · simp only [if_pos h1]
    simp [vcomp_vzero]
  · simp only [if_neg h1]
    by_cases h2 : face.getD 0 0 < verts.length ∧ face.getD 1 0 < verts.length ∧
        face.getD 2 0 < verts.length
    · simp only [if_pos h2]
      by_cases h3 : 0 < vnorm (cross
          (vsub (verts.getD (face.getD 1 0) vzero) (verts.getD (face.getD 0 0) vzero))
          (vsub (verts.getD (face.getD 2 0) vzero) (verts.getD (face.getD 0 0) vzero)))
      · simp only [if_pos h3]
        exact addNormal3_apply s.acc _ _ _ _ j c hc
      · simp only [if_neg h3]
        simp [vcomp_vzero]
    · simp only [if_neg h2]
      simp [vcomp_vzero]

theorem faceStep_indices (verts : List Vec3) (s : ExtractAcc) (face : List ℕ) :
    (faceStep verts s face).indices = s.indices ++ firstThree face := by
  unfold faceStep firstThree
  dsimp only
  split_ifs <;> simp

theorem faceStep_of_short (verts : List Vec3) (s : ExtractAcc) (face : List ℕ)
    (h : face.length < 3) : faceStep verts s face = s := by
  unfold faceStep
  rw [if_pos h]

theorem extractFold_acc (verts : List Vec3) (faces : List (List ℕ)) (s : ExtractAcc)
    (j c : ℕ) (hc : c < 3) :
    (List.foldl (faceStep verts) s faces).acc (j * 3 + c)
      = s.acc (j * 3 + c) + ((faces.map fun f => vcomp c (faceContribution verts f j)).sum) := by
  induction faces generalizing s with
  | nil => simp
  | cons f fs ih =>
      simp only [List.foldl_cons, List.map_cons, List.sum_cons]
      rw [ih, faceStep_acc_apply verts s f j c hc]
      ring

theorem extractCore_acc_apply (verts : List Vec3) (faces : List (List ℕ))
    (j c : ℕ) (hc : c < 3) :
    (extractCore verts faces).acc (j * 3 + c)
      = ((faces.map fun f => vcomp c (faceContribution verts f j)).sum) := by
  unfold extractCore
  rw [extractFold_acc verts faces _ j c hc]
  simp

theorem extractFold_indices (verts : List Vec3) (faces : List (List ℕ)) (s : ExtractAcc) :
    (List.foldl (faceStep verts) s faces).indices
      = s.indices ++ faces.flatMap firstThree := by
  induction faces generalizing s with
  | nil => simp
  | cons f fs ih =>
      simp [List.foldl_cons, ih, faceStep_indices, List.append_assoc]

theorem extractCore_indices (verts : List Vec3) (faces : List (List ℕ)) :
    (extractCore verts faces).indices = faces.flatMap firstThree := by
  unfold extractCore
  rw [extractFold_indices]
  simp

theorem normSq_eq_zero_iff (v : Vec3) : normSq v = 0 ↔ v = vzero := by
  obtain ⟨x, y, z⟩ := v
  unfold normSq vzero
  constructor
  · intro h
    have hx : x * x = 0 := by
      nlinarith [mul_self_nonneg x, mul_self_nonneg y, mul_self_nonneg z]
    have hy : y * y = 0 := by
      nlinarith [mul_self_nonneg x, mul_self_nonneg y, mul_self_nonneg z]
    have hz : z * z = 0 := by
      nlinarith [mul_self_nonneg x, mul_self_nonneg y, mul_self_nonneg z]
    simp only [Prod.mk.injEq]
    exact ⟨mul_self_eq_zero.mp hx, mul_self_eq_zero.mp hy, mul_self_eq_zero.mp hz⟩
  · intro h
    simp only [Prod.mk.injEq] at h
    obtain ⟨h1, h2, h3⟩ := h
    rw [h1, h2, h3]
    ring

theorem normSq_nonneg (v : Vec3) : 0 ≤ normSq v := by
  obtain ⟨x, y, z⟩ := v
  unfold normSq
  nlinarith [mul_self_nonneg x, mul_self_nonneg y, mul_self_nonneg z]

theorem vnorm_pos_iff (v : Vec3) : 0 < vnorm v ↔ v ≠ vzero := by
  unfold vnorm
  rw [Real.sqrt_pos]
  constructor
  · intro h he
    rw [he] at h
    norm_num [normSq, vzero] at h
  · intro h
    rcases (normSq_nonneg v).lt_or_eq with h0 | h0
    · exact h0
    · exact absurd ((normSq_eq_zero_iff v).mp h0.symm) h

/-- The specified per-vertex final normal: the normalized accumulated
vector, or the default (0,0,1) when the accumulated vector is zero. -/
def specVertexNormal (v : Vec3) : Vec3 :=
  if v = vzero then ((0 : ℝ), (0 : ℝ), (1 : ℝ)) else vdiv v (vnorm v)

theorem finalizeVertex_eq (acc : ℕ → ℝ) (i : ℕ) :
    finalizeVertex acc i
      = vecToList (specVertexNormal (acc (i * 3 + 0), acc (i * 3 + 1), acc (i * 3 + 2))) := by
  unfold finalizeVertex specVertexNormal
  dsimp only
  by_cases h : (acc (i * 3 + 0), acc (i * 3 + 1), acc (i * 3 + 2)) = vzero
  · obtain ⟨h0, h1, h2⟩ : acc (i * 3 + 0) = 0 ∧ acc (i * 3 + 1) = 0 ∧ acc (i * 3 + 2) = 0 := by
      simpa [vzero, Prod.ext_iff] using h
    rw [if_pos h, h0, h1, h2]
    norm_num [vecToList]
  · have hpos : 0 < vnorm (acc (i * 3 + 0), acc (i * 3 + 1), acc (i * 3 + 2)) :=
      (vnorm_pos_iff _).mpr h
    rw [if_neg h]
    rw [if_pos (by simpa [vnorm, normSq] using hpos)]
    simp [vecToList, vdiv, vnorm, normSq]

theorem extractFold_filter (verts : List Vec3) (faces : List (List ℕ)) (s : ExtractAcc) :
    List.foldl (faceStep verts) s faces
      = List.foldl (faceStep verts) s (faces.filter fun f => decide (¬ f.length < 3)) := by
  induction faces generalizing s with
  | nil => rfl
  | cons f fs ih =>
      by_cases h : f.length < 3
      · rw [List.foldl_cons, faceStep_of_short _ _ _ h, List.filter_cons,
          if_neg (by simp [h])]
        exact ih s
      · rw [List.foldl_cons, List.filter_cons, if_pos (by simp [h]), List.foldl_cons]
        exact ih _

theorem mem_of_mem_firstThree (face : List ℕ) (i : ℕ) (h : i ∈ firstThree face) :
    i ∈ face := by
  unfold firstThree at h
  split_ifs at h with hlen
  · simp at h
  · have hg : ∀ k, k < face.length → face.getD k 0 ∈ face := by
      intro k hk
      rw [List.getD_eq_getElem face 0 hk]
      exact List.getElem_mem hk
    simp only [List.mem_cons, List.not_mem_nil, or_false] at h
    rcases h with h | h | h <;> subst h <;> exact hg _ (by omega)

theorem addNormal3_ne_cases (f : ℕ → ℝ) (i0 i1 i2 : ℕ) (u : Vec3) (p : ℕ)
    (h : addNormal (addNormal (addNormal f i0 u) i1 u) i2 u p ≠ f p) :
    (p = i0 * 3 + 0 ∨ p = i0 * 3 + 1 ∨ p = i0 * 3 + 2)
    ∨ (p = i1 * 3 + 0 ∨ p = i1 * 3 + 1 ∨ p = i1 * 3 + 2)
    ∨ (p = i2 * 3 + 0 ∨ p = i2 * 3 + 1 ∨ p = i2 * 3 + 2) := by
  by_contra hc
  push_neg at hc
  obtain ⟨⟨a0, a1, a2⟩, ⟨b0, b1, b2⟩, ⟨c0, c1, c2⟩⟩ := hc
  apply h
  unfold addNormal
  rw [bump_apply, if_neg c2, bump_apply, if_neg c1, bump_apply, if_neg c0,
    bump_apply, if_neg b2, bump_apply, if_neg b1, bump_apply, if_neg b0,
    bump_apply, if_neg a2, bump_apply, if_neg a1, bump_apply, if_neg a0]

/-- C1 counterexample: on a mesh with one vertex whose single triangular
face references the out-of-range indices 1 and 2, extraction still emits
those indices, so not every element of `indices` is below
`vertexCount`. -/
theorem c1_counterexample :
    ¬ (∀ i ∈ (extractMeshData none meshOutOfRange emptyRenderResult).indices,
        i < (extractMeshData none meshOutOfRange emptyRenderResult).vertex_count) := by
  decide

/-- C1 (amended): for every input mesh all of whose faces reference only
in-range vertex indices (in particular the effectively extracted mesh after
the tessellation choice), every element of the extracted `indices` array is
strictly below `vertexCount`. The unrestricted form of the claim is false:
the source pushes a face's first three indices before its bounds check,
which guards only the normal accumulation. -/
theorem c1_indices_bounded_amended (tess : Option Mesh) (m : Mesh)
    (hin : ∀ f ∈ (effMesh tess m).indices, ∀ i ∈ f, i < (effMesh tess m).vertices.length) :
    ∀ i ∈ (extractMeshData tess m emptyRenderResult).indices,
      i < (extractMeshData tess m emptyRenderResult).vertex_count := by
  intro i hi
  have hidx : (extractMeshData tess m emptyRenderResult).indices
      = (effMesh tess m).indices.flatMap firstThree := by
    unfold extractMeshData
    dsimp only
    exact extractCore_indices _ _
  have hvc : (extractMeshData tess m emptyRenderResult).vertex_count
      = (effMesh tess m).vertices.length := rfl
  rw [hidx] at hi
  rw [hvc]
  rcases List.mem_flatMap.mp hi with ⟨f, hf, hif⟩
  exact hin f hf i (mem_of_mem_firstThree f i hif)

/-- C1 witness: on a valid triangle the extracted index 2 is below the
vertex count. -/
theorem c1_witness :
    2 < (extractMeshData none meshTriangle emptyRenderResult).vertex_count :=
  c1_indices_bounded_amended none meshTriangle (by decide) 2 (by
    have h : (extractMeshData none meshTriangle emptyRenderResult).indices
        = (effMesh none meshTriangle).indices.flatMap firstThree := by
      unfold extractMeshData
      dsimp only
      exact extractCore_indices _ _
    rw [h]
    decide)

/-- C6: every face with fewer than 3 vertices contributes nothing at all
(it is dropped from the fold), and the extracted indices are exactly the
concatenation, in face order, of each remaining face's first three vertex
indices in order, with no re-triangulation. -/
theorem c6_short_faces_skipped_first_three_emitted (tess : Option Mesh) (m : Mesh) :
    (extractMeshData tess m emptyRenderResult).indices
      = (effMesh tess m).indices.flatMap firstThree
    ∧ ∀ (verts : List Vec3) (faces : List (List ℕ)),
        extractCore verts faces
          = extractCore verts (faces.filter fun f => decide (¬ f.length < 3)) := by
  constructor
  · unfold extractMeshData
    dsimp only
    exact extractCore_indices _ _
  · intro verts faces
    unfold extractCore
    exact extractFold_filter verts faces _


/-- C10: normal accumulation is guarded by the in-range check on all three
face indices. A face whose indices are not all below the vertex count
leaves the whole accumulator unchanged while its three indices are still
emitted; and any flat accumulator position a face changes belongs to the
in-range flat normal array (position `j*3+component` for one of the face's
first three indices `j`, all below the vertex count), so no out-of-bounds
vertex or normal access occurs. -/
theorem c10_guarded_accumulation (verts : List Vec3) (s : ExtractAcc) (face : List ℕ) :
    (¬ face.length < 3 →
      ¬ (face.getD 0 0 < verts.length ∧ face.getD 1 0 < verts.length ∧
          face.getD 2 0 < verts.length) →
      (faceStep verts s face).acc = s.acc ∧
        (faceStep verts s face).indices
          = s.indices ++ [face.getD 0 0, face.getD 1 0, face.getD 2 0])
    ∧ ∀ p : ℕ, (faceStep verts s face).acc p ≠ s.acc p →
        p < 3 * verts.length ∧
        ∃ j, j < verts.length ∧ j ∈ [face.getD 0 0, face.getD 1 0, face.getD 2 0] ∧
          (p = j * 3 + 0 ∨ p = j * 3 + 1 ∨ p = j * 3 + 2) := by
  constructor
  · intro h1 h2
    unfold faceStep
    dsimp only
    rw [if_neg h1, if_neg h2]
    exact ⟨rfl, rfl⟩
  · intro p hp
    unfold faceStep at hp
    dsimp only at hp
    by_cases h1 : face.length < 3
    · rw [if_pos h1] at hp
      exact absurd rfl hp
    · rw [if_neg h1] at hp
      by_cases h2 : face.getD 0 0 < verts.length ∧ face.getD 1 0 < verts.length ∧
          face.getD 2 0 < verts.length
      · rw [if_pos h2] at hp
        obtain ⟨g0, g1, g2⟩ := h2
        by_cases h3 : 0 < vnorm (cross
            (vsub (verts.getD (face.getD 1 0) vzero) (verts.getD (face.getD 0 0) vzero))
            (vsub (verts.getD (face.getD 2 0) vzero) (verts.getD (face.getD 0 0) vzero)))
        · rw [if_pos h3] at hp
          rcases addNormal3_ne_cases _ _ _ _ _ _ hp with h | h | h
          · exact ⟨by omega, face.getD 0 0, g0, by simp, h⟩
          · exact ⟨by omega, face.getD 1 0, g1, by simp, h⟩
          · exact ⟨by omega, face.getD 2 0, g2, by simp, h⟩
        · rw [if_neg h3] at hp
          exact absurd rfl hp
      · rw [if_neg h2] at hp
        exact absurd rfl hp

/-- C10 witness: a face referencing out-of-range indices on a one-vertex
mesh leaves the accumulator untouched and still emits its indices. -/
theorem c10_witness :
    (faceStep [((0 : ℝ), (0 : ℝ), (0 : ℝ))] ⟨[], fun _ => 0⟩ [0, 1, 2]).acc
        = (⟨[], fun _ => 0⟩ : ExtractAcc).acc
    ∧ (faceStep [((0 : ℝ), (0 : ℝ), (0 : ℝ))] ⟨[], fun _ => 0⟩ [0, 1, 2]).indices
        = (⟨[], fun _ => 0⟩ : ExtractAcc).indices ++ [0, 1, 2] :=
  (c10_guarded_accumulation _ _ _).1 (by decide) (by decide)

/-- C5: the flat normal accumulator produced by the face loop carries, at
flat position `j*3+c`, the sum over the faces (in order) of the specified
per-face contribution to vertex `j`: the normalized cross product of the
edge vectors `(v1-v0)` and `(v2-v0)`, added once for each of the face's
first three indices equal to `j`, and zero for short, out-of-range or
degenerate (zero-length cross product) faces; and the final normals array
is, vertex by vertex, the normalized accumulated vector, with a zero
accumulated vector replaced by the default normal (0,0,1). -/
theorem c5_normal_computation (tess : Option Mesh) (m : Mesh) :
    (∀ j c : ℕ, c < 3 →
      (extractCore (effMesh tess m).vertices (effMesh tess m).indices).acc (j * 3 + c)
        = (((effMesh tess m).indices.map fun f =>
            vcomp c (faceContribution (effMesh tess m).vertices f j)).sum))
    ∧ (extractMeshData tess m emptyRenderResult).normals
        = (List.range (effMesh tess m).vertices.length).flatMap fun j =>
            vecToList (specVertexNormal
              ((extractCore (effMesh tess m).vertices (effMesh tess m).indices).acc (j * 3 + 0),
               (extractCore (effMesh tess m).vertices (effMesh tess m).indices).acc (j * 3 + 1),
               (extractCore (effMesh tess m).vertices (effMesh tess m).indices).acc (j * 3 + 2))) := by
  constructor
  · intro j c hc
    exact extractCore_acc_apply _ _ j c hc
  · unfold extractMeshData
    dsimp only
    exact congrArg _ (funext fun j => finalizeVertex_eq _ j)

/-- C5 witness: for a valid unit triangle, the z accumulator of vertex 0
equals the specified face-contribution sum. -/
theorem c5_witness :
    (extractCore (effMesh none meshTriangle).vertices (effMesh none meshTriangle).indices).acc
        (0 * 3 + 2)
      = (((effMesh none meshTriangle).indices.map fun f =>
          vcomp 2 (faceContribution (effMesh none meshTriangle).vertices f 0)).sum) :=
  (c5_normal_computation none meshTriangle).1 0 2 (by decide)


theorem exnMessage_ne_empty (msg : Option String) : exnMessage msg ≠ "" := by
  cases msg with
  | none => decide
  | some m =>
      unfold exnMessage
      intro h
      have hd := congrArg String.data h
      rw [String.data_append] at hd
      simp at hd

theorem errParse_ne : ("Failed to parse OpenSCAD source" : String) ≠ "" := by decide

theorem errCancel_ne : ("Render cancelled" : String) ≠ "" := by decide

theorem errInst_ne : ("Failed to instantiate module" : String) ≠ "" := by decide

theorem errGeom_ne : ("Failed to evaluate geometry" : String) ≠ "" := by decide

theorem errMesh_ne : ("Geometry produced no mesh data" : String) ≠ "" := by decide

theorem errInit_ne : ("Failed to initialize OpenSCAD engine" : String) ≠ "" := by decide

theorem renderAfterInit_shape (g : GlobalState) (env : RenderEnv) :
    (renderAfterInit g env emptyRenderResult).2.success = true
    ∨ ((renderAfterInit g env emptyRenderResult).2.positions = []
       ∧ (renderAfterInit g env emptyRenderResult).2.normals = []
       ∧ (renderAfterInit g env emptyRenderResult).2.indices = []
       ∧ (renderAfterInit g env emptyRenderResult).2.vertex_count = 0
       ∧ (renderAfterInit g env emptyRenderResult).2.triangle_count = 0
       ∧ (renderAfterInit g env emptyRenderResult).2.error_message ≠ "") := by
  unfold renderAfterInit
  cases hp : env.parse with
  | fail pout => exact Or.inr ⟨rfl, rfl, rfl, rfl, rfl, errParse_ne⟩
  | exn msg pout => exact Or.inr ⟨rfl, rfl, rfl, rfl, rfl, exnMessage_ne_empty msg⟩
  | ok u pout =>
    cases hc1 : env.cancel1 with
    | true => exact Or.inr ⟨rfl, rfl, rfl, rfl, rfl, errCancel_ne⟩
    | false =>
      cases hinst : env.inst with
      | fail iout => exact Or.inr ⟨rfl, rfl, rfl, rfl, rfl, errInst_ne⟩
      | exn msg iout => exact Or.inr ⟨rfl, rfl, rfl, rfl, rfl, exnMessage_ne_empty msg⟩
      | ok v iout =>
        cases hc2 : env.cancel2 with
        | true => exact Or.inr ⟨rfl, rfl, rfl, rfl, rfl, errCancel_ne⟩
        | false =>
          cases hgeom : env.geom with
          | fail gout => exact Or.inr ⟨rfl, rfl, rfl, rfl, rfl, errGeom_ne⟩
          | exn msg gout => exact Or.inr ⟨rfl, rfl, rfl, rfl, rfl, exnMessage_ne_empty msg⟩
          | ok w gout =>
            cases hc3 : env.cancel3 with
            | true => exact Or.inr ⟨rfl, rfl, rfl, rfl, rfl, errCancel_ne⟩
            | false =>
              cases hcv : env.convert with
              | fail cout => exact Or.inr ⟨rfl, rfl, rfl, rfl, rfl, errMesh_ne⟩
              | exn msg cout => exact Or.inr ⟨rfl, rfl, rfl, rfl, rfl, exnMessage_ne_empty msg⟩
              | ok ps cout =>
                obtain he | he := Bool.eq_false_or_eq_true ps.isEmpty
                · simp only [he]
                  exact Or.inr ⟨rfl, rfl, rfl, rfl, rfl, errMesh_ne⟩
                · simp only [he]
                  exact Or.inl rfl

/-- C4: whenever a render returns with `success = false` (any failure
path: initialization failure, parse or stage failure, cancellation, or a
caught fault), the positions, normals and indices arrays are empty, both
counts are zero, and the error message is non-empty. -/
theorem c4_failed_results (g : GlobalState) (env : RenderEnv) (src : String)
    (fp : Option String) :
    (openscad_render g env src fp).2.success = false →
      (openscad_render g env src fp).2.positions = []
      ∧ (openscad_render g env src fp).2.normals = []
      ∧ (openscad_render g env src fp).2.indices = []
      ∧ (openscad_render g env src fp).2.vertex_count = 0
      ∧ (openscad_render g env src fp).2.triangle_count = 0
      ∧ (openscad_render g env src fp).2.error_message ≠ "" := by
  unfold openscad_render
  dsimp only
  by_cases hg : g.initialized = true
  · rw [if_pos hg]
    intro h
    rcases renderAfterInit_shape { g with cancelled := false } env with hs | hs
    · rw [hs] at h
      exact absurd h (by decide)
    · exact hs
  · rw [if_neg hg]
    unfold openscad_init
    dsimp only
    rw [if_neg hg]
    by_cases hf : env.initFails = true
    · rw [if_pos hf]
      dsimp only
      rw [if_neg (by decide : ¬((-1 : Int) = 0))]
      intro h
      exact ⟨rfl, rfl, rfl, rfl, rfl, errInit_ne⟩
    · rw [if_neg hf]
      dsimp only
      rw [if_pos (rfl : (0 : Int) = 0)]
      intro h
      rcases renderAfterInit_shape
          { initialized := true, cancelled := false } env with hs | hs
      · rw [hs] at h
        exact absurd h (by decide)
      · exact hs

/-- C4 witness: a render whose parse step fails returns empty arrays, zero
counts and a non-empty error message. -/
theorem c4_witness :
    (openscad_render ⟨true, false⟩ { envAllOk with parse := .fail "perr" } "x" none).2.positions = []
    ∧ (openscad_render ⟨true, false⟩ { envAllOk with parse := .fail "perr" } "x" none).2.normals = []
    ∧ (openscad_render ⟨true, false⟩ { envAllOk with parse := .fail "perr" } "x" none).2.indices = []
    ∧ (openscad_render ⟨true, false⟩ { envAllOk with parse := .fail "perr" } "x" none).2.vertex_count = 0
    ∧ (openscad_render ⟨true, false⟩ { envAllOk with parse := .fail "perr" } "x" none).2.triangle_count = 0
    ∧ (openscad_render ⟨true, false⟩ { envAllOk with parse := .fail "perr" } "x" none).2.error_message ≠ "" :=
  c4_failed_results ⟨true, false⟩ { envAllOk with parse := .fail "perr" } "x" none (by decide)

/-- C8: `openscad_init` is idempotent: if a first call succeeds (returns
0), the initialized flag is true afterwards and a second call performs no
setup, leaves the state unchanged and returns 0 whatever its own setup
outcome would have been. -/
theorem c8_init_idempotent (g : GlobalState) (f1 f2 : Bool)
    (h : (openscad_init g f1).2 = 0) :
    openscad_init (openscad_init g f1).1 f2 = ((openscad_init g f1).1, 0)
    ∧ (openscad_init g f1).1.initialized = true := by
  by_cases hg : g.initialized = true
  · have h1 : openscad_init g f1 = (g, 0) := by
      unfold openscad_init
      rw [if_pos hg]
    rw [h1]
    refine ⟨?_, hg⟩
    unfold openscad_init
    rw [if_pos hg]
  · by_cases hf : f1 = true
    · have h1 : openscad_init g f1 = ({ g with initialized := false }, -1) := by
        unfold openscad_init
        rw [if_neg hg, if_pos hf]
      rw [h1] at h
      exact absurd (show (-1 : Int) = 0 from h) (by decide)
    · have h1 : openscad_init g f1 = ({ g with initialized := true }, 0) := by
        unfold openscad_init
        rw [if_neg hg, if_neg hf]
      rw [h1]
      refine ⟨?_, rfl⟩
      unfold openscad_init
      rw [if_pos (show ({ g with initialized := true } : GlobalState).initialized = true from rfl)]

/-- C8 witness: after a successful first initialization from the fresh
state, a second call (even one whose setup would fail) is a no-op
returning 0 with the flag still true. -/
theorem c8_witness :
    openscad_init (openscad_init ⟨false, false⟩ false).1 true
      = ((openscad_init ⟨false, false⟩ false).1, 0)
    ∧ (openscad_init ⟨false, false⟩ false).1.initialized = true :=
  c8_init_idempotent ⟨false, false⟩ false true (by decide)

/-- C9: the fonts_path argument of `openscad_render` has no observable
effect: any two values (including absent) give identical results. -/
theorem c9_fonts_path_no_effect (g : GlobalState) (env : RenderEnv) (src : String)
    (fp1 fp2 : Option String) :
    openscad_render g env src fp1 = openscad_render g env src fp2 := rfl



/-- C2 counterexample: with the cancellation flag already set before the
call (the state ⟨true, true⟩) and every collaborator succeeding, the render
still succeeds with an empty error message: the flag reset at the start of
`openscad_render` wipes the earlier request, so no Cancelled failure
occurs at any checkpoint. -/
theorem c2_counterexample :
    (⟨true, true⟩ : GlobalState).cancelled = true
    ∧ (openscad_render ⟨true, true⟩ envAllOk "cube(1);" none).2.success = true
    ∧ (openscad_render ⟨true, true⟩ envAllOk "cube(1);" none).2.error_message
        ≠ "Render cancelled" := by
  decide

/-- C2 (amended): a cancellation requested before a render starts has no
effect, because `openscad_render` resets the flag at its start (the result
does not depend on the incoming flag value); a request that arrives after
the reset and before the first post-parse checkpoint does yield a
"Render cancelled" failure with no mesh data at that checkpoint. -/
theorem c2_cancel_reset_amended (g : GlobalState) (env : RenderEnv) (src : String)
    (fp : Option String) :
    (openscad_render g env src fp
        = openscad_render { g with cancelled := false } env src fp)
    ∧ (g.initialized = true →
        ∀ (u : Unit) (pout : String), env.parse = .ok u pout → env.cancel1 = true →
          ((openscad_render g env src fp).2.success = false
           ∧ (openscad_render g env src fp).2.error_message = "Render cancelled"
           ∧ (openscad_render g env src fp).2.console_output = pout
           ∧ (openscad_render g env src fp).2.positions = []
           ∧ (openscad_render g env src fp).2.normals = []
           ∧ (openscad_render g env src fp).2.indices = []
           ∧ (openscad_render g env src fp).2.vertex_count = 0)) := by
  constructor
  · rfl
  · intro hi u pout hp hc1
    have hr : openscad_render g env src fp
        = renderAfterInit { g with cancelled := false } env emptyRenderResult := by
      unfold openscad_render
      dsimp only
      rw [if_pos hi]
    rw [hr]
    unfold renderAfterInit
    rw [hp]
    dsimp only
    rw [if_pos hc1]
    exact ⟨rfl, rfl, rfl, rfl, rfl, rfl, rfl⟩

/-- C2 witness: with the engine initialized, a successful parse and a
cancellation request arriving right after the reset, the render fails with
"Render cancelled" and no mesh data. -/
theorem c2_witness :
    (openscad_render ⟨true, false⟩ { envAllOk with cancel1 := true } "x" none).2.success = false
    ∧ (openscad_render ⟨true, false⟩ { envAllOk with cancel1 := true } "x" none).2.error_message
        = "Render cancelled"
    ∧ (openscad_render ⟨true, false⟩ { envAllOk with cancel1 := true } "x" none).2.console_output
        = "p"
    ∧ (openscad_render ⟨true, false⟩ { envAllOk with cancel1 := true } "x" none).2.positions = []
    ∧ (openscad_render ⟨true, false⟩ { envAllOk with cancel1 := true } "x" none).2.normals = []
    ∧ (openscad_render ⟨true, false⟩ { envAllOk with cancel1 := true } "x" none).2.indices = []
    ∧ (openscad_render ⟨true, false⟩ { envAllOk with cancel1 := true } "x" none).2.vertex_count = 0 :=
  (c2_cancel_reset_amended ⟨true, false⟩ { envAllOk with cancel1 := true } "x" none).2
    rfl () "p" rfl rfl

/-- C3 counterexample: with every collaborator succeeding and a
cancellation request arriving after the third checkpoint but before
extraction begins, the render succeeds anyway: there is no poll of the
cancellation flag before the extraction stage. -/
theorem c3_counterexample :
    ({ envAllOk with cancel4 := true } : RenderEnv).cancel4 = true
    ∧ (openscad_render ⟨true, false⟩ { envAllOk with cancel4 := true } "x" none).2.success = true
    ∧ (openscad_render ⟨true, false⟩ { envAllOk with cancel4 := true } "x" none).2.error_message
        ≠ "Render cancelled" := by
  decide

/-- C3 (amended): the pipeline polls the cancellation flag before
Instantiating, before Evaluating and before Triangulating (the conversion
to a polygon mesh) — but not before Extracting. At each of these three
polls, a set flag makes the render fail immediately with error
"Render cancelled", with no geometry and with exactly the console text
captured up to that point. -/
theorem c3_checkpoints_amended (g : GlobalState) (env : RenderEnv) (src : String)
    (fp : Option String) (hi : g.initialized = true) :
    (∀ (u : Unit) (pout : String), env.parse = .ok u pout → env.cancel1 = true →
      ((openscad_render g env src fp).2.success = false
       ∧ (openscad_render g env src fp).2.error_message = "Render cancelled"
       ∧ (openscad_render g env src fp).2.console_output = pout
       ∧ (openscad_render g env src fp).2.positions = []
       ∧ (openscad_render g env src fp).2.indices = []))
    ∧ (∀ (u : Unit) (pout : String) (v : Unit) (iout : String),
        env.parse = .ok u pout → env.cancel1 = false →
        env.inst = .ok v iout → env.cancel2 = true →
          ((openscad_render g env src fp).2.success = false
           ∧ (openscad_render g env src fp).2.error_message = "Render cancelled"
           ∧ (openscad_render g env src fp).2.console_output = pout ++ iout
           ∧ (openscad_render g env src fp).2.positions = []
           ∧ (openscad_render g env src fp).2.indices = []))
    ∧ (∀ (u : Unit) (pout : String) (v : Unit) (iout : String) (w : Unit) (gout : String),
        env.parse = .ok u pout → env.cancel1 = false →
        env.inst = .ok v iout → env.cancel2 = false →
        env.geom = .ok w gout → env.cancel3 = true →
          ((openscad_render g env src fp).2.success = false
           ∧ (openscad_render g env src fp).2.error_message = "Render cancelled"
           ∧ (openscad_render g env src fp).2.console_output = pout ++ iout ++ gout
           ∧ (openscad_render g env src fp).2.positions = []
           ∧ (openscad_render g env src fp).2.indices = [])) := by
  have hr : openscad_render g env src fp
      = renderAfterInit { g with cancelled := false } env emptyRenderResult := by
    unfold openscad_render
    dsimp only
    rw [if_pos hi]
  refine ⟨?_, ?_, ?_⟩
  · intro u pout hp hc1
    rw [hr]
    unfold renderAfterInit
    rw [hp]
    dsimp only
    rw [if_pos hc1]
    exact ⟨rfl, rfl, rfl, rfl, rfl⟩
  · intro u pout v iout hp hc1 hinst hc2
    rw [hr]
    unfold renderAfterInit
    rw [hp]
    dsimp only
    rw [if_neg (by simp [hc1]), hinst]
    dsimp only
    rw [if_pos (by simp [hc1, hc2])]
    exact ⟨rfl, rfl, rfl, rfl, rfl⟩
  · intro u pout v iout w gout hp hc1 hinst hc2 hgeom hc3
    rw [hr]
    unfold renderAfterInit
    rw [hp]
    dsimp only
    rw [if_neg (by simp [hc1]), hinst]
    dsimp only
    rw [if_neg (by simp [hc1, hc2]), hgeom]
    dsimp only
    rw [if_pos (by simp [hc1, hc2, hc3])]
    exact ⟨rfl, rfl, rfl, rfl, rfl⟩

/-- C3 witness: a cancellation request arriving between the first and the
second checkpoint makes the render fail at the second poll with
"Render cancelled" and the console text of the parse and instantiation
stages. -/
theorem c3_witness :
    (openscad_render ⟨true, false⟩ { envAllOk with cancel2 := true } "x" none).2.success = false
    ∧ (openscad_render ⟨true, false⟩ { envAllOk with cancel2 := true } "x" none).2.error_message
        = "Render cancelled"
    ∧ (openscad_render ⟨true, false⟩ { envAllOk with cancel2 := true } "x" none).2.console_output
        = "p" ++ "i"
    ∧ (openscad_render ⟨true, false⟩ { envAllOk with cancel2 := true } "x" none).2.positions = []
    ∧ (openscad_render ⟨true, false⟩ { envAllOk with cancel2 := true } "x" none).2.indices = [] :=
  (c3_checkpoints_amended ⟨true, false⟩ { envAllOk with cancel2 := true } "x" none rfl).2.1
    () "p" () "i" rfl rfl rfl rfl

/-- C7: a fault thrown by any of the modelled external calls (parse,
instantiate, geometry evaluation, conversion to a polygon mesh) is caught
at the render boundary and converted into a failed result whose error
message is "Exception: " followed by the descriptive message when one is
available and the fixed unknown-exception message otherwise, with the
console text captured up to the fault attached and no mesh data; the
render itself always returns a result. -/
theorem c7_faults_become_failures (g : GlobalState) (env : RenderEnv) (src : String)
    (fp : Option String) (hi : g.initialized = true) :
    (∀ (msg : Option String) (pout : String), env.parse = .exn msg pout →
      ((openscad_render g env src fp).2.success = false
       ∧ (openscad_render g env src fp).2.error_message = exnMessage msg
       ∧ (openscad_render g env src fp).2.console_output = pout
       ∧ (openscad_render g env src fp).2.positions = []
       ∧ (openscad_render g env src fp).2.indices = []))
    ∧ (∀ (u : Unit) (pout : String) (msg : Option String) (iout : String),
        env.parse = .ok u pout → env.cancel1 = false → env.inst = .exn msg iout →
          ((openscad_render g env src fp).2.success = false
           ∧ (openscad_render g env src fp).2.error_message = exnMessage msg
           ∧ (openscad_render g env src fp).2.console_output = pout ++ iout
           ∧ (openscad_render g env src fp).2.positions = []
           ∧ (openscad_render g env src fp).2.indices = []))
    ∧ (∀ (u : Unit) (pout : String) (v : Unit) (iout : String) (msg : Option String)
          (gout : String),
        env.parse = .ok u pout → env.cancel1 = false →
        env.inst = .ok v iout → env.cancel2 = false → env.geom = .exn msg gout →
          ((openscad_render g env src fp).2.success = false
           ∧ (openscad_render g env src fp).2.error_message = exnMessage msg
           ∧ (openscad_render g env src fp).2.console_output = pout ++ iout ++ gout
           ∧ (openscad_render g env src fp).2.positions = []
           ∧ (openscad_render g env src fp).2.indices = []))
    ∧ (∀ (u : Unit) (pout : String) (v : Unit) (iout : String) (w : Unit) (gout : String)
          (msg : Option String) (cout : String),
        env.parse = .ok u pout → env.cancel1 = false →
        env.inst = .ok v iout → env.cancel2 = false →
        env.geom = .ok w gout → env.cancel3 = false → env.convert = .exn msg cout →
          ((openscad_render g env src fp).2.success = false
           ∧ (openscad_render g env src fp).2.error_message = exnMessage msg
           ∧ (openscad_render g env src fp).2.console_output = pout ++ iout ++ gout ++ cout
           ∧ (openscad_render g env src fp).2.positions = []
           ∧ (openscad_render g env src fp).2.indices = [])) := by
  have hr : openscad_render g env src fp
      = renderAfterInit { g with cancelled := false } env emptyRenderResult := by
    unfold openscad_render
    dsimp only
    rw [if_pos hi]
  refine ⟨?_, ?_, ?_, ?_⟩
  · intro msg pout hp
    rw [hr]
    unfold renderAfterInit
    rw [hp]
    exact ⟨rfl, rfl, rfl, rfl, rfl⟩
  · intro u pout msg iout hp hc1 hinst
    rw [hr]
    unfold renderAfterInit
    rw [hp]
    dsimp only
    rw [if_neg (by simp [hc1]), hinst]
    exact ⟨rfl, rfl, rfl, rfl, rfl⟩
  · intro u pout v iout msg gout hp hc1 hinst hc2 hgeom
    rw [hr]
    unfold renderAfterInit
    rw [hp]
    dsimp only
    rw [if_neg (by simp [hc1]), hinst]
    dsimp only
    rw [if_neg (by simp [hc1, hc2]), hgeom]
    exact ⟨rfl, rfl, rfl, rfl, rfl⟩
  · intro u pout v iout w gout msg cout hp hc1 hinst hc2 hgeom hc3 hcv
    rw [hr]
    unfold renderAfterInit
    rw [hp]
    dsimp only
    rw [if_neg (by simp [hc1]), hinst]
    dsimp only
    rw [if_neg (by simp [hc1, hc2]), hgeom]
    dsimp only
    rw [if_neg (by simp [hc1, hc2, hc3]), hcv]
    exact ⟨rfl, rfl, rfl, rfl, rfl⟩

/-- C7 witness: a parse-stage fault with the descriptive message "boom"
yields a failed result with error message "Exception: boom", the captured
console text and no mesh data. -/
theorem c7_witness :
    (openscad_render ⟨true, false⟩ { envAllOk with parse := .exn (some "boom") "p" }
        "x" none).2.success = false
    ∧ (openscad_render ⟨true, false⟩ { envAllOk with parse := .exn (some "boom") "p" }
        "x" none).2.error_message = exnMessage (some "boom")
    ∧ (openscad_render ⟨true, false⟩ { envAllOk with parse := .exn (some "boom") "p" }
        "x" none).2.console_output = "p"
    ∧ (openscad_render ⟨true, false⟩ { envAllOk with parse := .exn (some "boom") "p" }
        "x" none).2.positions = []
    ∧ (openscad_render ⟨true, false⟩ { envAllOk with parse := .exn (some "boom") "p" }
        "x" none).2.indices = [] :=
  (c7_faults_become_failures ⟨true, false⟩ { envAllOk with parse := .exn (some "boom") "p" }
      "x" none rfl).1 (some "boom") "p" rfl


end OpenSCADKit
